import Mathlib

set_option maxRecDepth 8000

/-!
Shallow embedding of the quotation price-suggestion and risk-analysis engine
(`backend/app/services/quotation.py`, classes `PriceSuggestionService` and
`RiskAnalysisService`, together with the fields of
`backend/app/models/quotation.py` that those services read).

Numbers are modelled as exact rationals (`ℚ`).  Python `round(x, n)` is
round-half-to-even on the scaled value; Python truthiness of optional floats
and strings is modelled explicitly.  Repository collaborators (historical
price fetch, quotation lookup, risk-factor registry, write-back) are
modelled by passing their results as arguments and returning the emitted
write-back calls; `datetime` timestamps are omitted.  A division that Python
would perform on a zero divisor (raising `ZeroDivisionError`) is modelled by
returning `none`.
-/

namespace CotAi

/-- Python truthiness-based `x or d` for an optional float:
`None` and `0.0` are falsy, any other value is returned unchanged. -/
def qOr (x : Option ℚ) (d : ℚ) : ℚ :=
  match x with
  | none => d
  | some v => if v = 0 then d else v

/-- Python truthiness of an optional float (`None` and `0.0` are falsy). -/
def qTruthy : Option ℚ → Bool
  | none => false
  | some v => v != 0

/-- Python truthiness of an optional bool (`None` and `False` are falsy). -/
def bTruthy : Option Bool → Bool
  | o => o.getD false

/-- Python truthiness of an optional string (`None` and `""` are falsy). -/
def sTruthy : Option String → Bool
  | none => false
  | some s => !s.isEmpty

/-- Round a rational to the nearest integer, ties to the even integer
(the rounding mode of Python `round`). -/
def rhe (x : ℚ) : ℤ :=
  if Int.fract x < 1/2 then ⌊x⌋
  else if 1/2 < Int.fract x then ⌊x⌋ + 1
  else if ⌊x⌋ % 2 = 0 then ⌊x⌋ else ⌊x⌋ + 1

/-- Python `round(x, nd)` on exact rationals: half-to-even at `nd` decimals. -/
def pyRound (nd : ℕ) (x : ℚ) : ℚ :=
  (rhe (x * 10 ^ nd) : ℚ) / 10 ^ nd

/-- Does `pat` occur at the start of `text` (character lists)? -/
def leadsChars : List Char → List Char → Bool
  | _, [] => true
  | [], _ :: _ => false
  | c :: cs, d :: ds => c = d && leadsChars cs ds

/-- Does `pat` occur as a contiguous sublist of `text`? -/
def containsChars : List Char → List Char → Bool
  | [], pat => pat.isEmpty
  | c :: cs, pat => leadsChars (c :: cs) pat || containsChars cs pat

/-- Python `pat in s` substring test. -/
def strOccursIn (pat s : String) : Bool :=
  containsChars s.toList pat.toList

/-- Render a rational with one decimal digit (Python `f"{x:.1f}"`,
used only inside human-readable description strings). -/
def fmt1 (x : ℚ) : String :=
  let k := rhe (x * 10)
  (if k < 0 then "-" else "") ++ toString (k.natAbs / 10) ++ "." ++ toString (k.natAbs % 10)

/-- Render a rational with two decimal digits (Python `f"{x:.2f}"`,
used only inside human-readable explanation strings). -/
def fmt2 (x : ℚ) : String :=
  let k := rhe (x * 100)
  (if k < 0 then "-" else "") ++ toString (k.natAbs / 100) ++ "." ++
    toString (k.natAbs % 100 / 10) ++ toString (k.natAbs % 10)

/-- `app.models.quotation.PriceSource` (string enum). -/
inductive PriceSource where
  | historical
  | market
  | manual
  | ai_suggested
deriving DecidableEq, Repr

/-- `app.models.quotation.RiskLevel` (string enum). -/
inductive RiskLevel where
  | low
  | medium
  | high
  | critical
deriving DecidableEq, Repr

/-- The `.value` of the `RiskLevel` string enum. -/
def RiskLevel.value : RiskLevel → String
  | .low => "low"
  | .medium => "medium"
  | .high => "high"
  | .critical => "critical"

/-- The field of `app.models.quotation.HistoricalPrice` read by the
price-suggestion service. -/
structure HistoricalPrice where
  unit_price : ℚ
deriving DecidableEq, Repr

/-- The response dictionary built by `PriceSuggestionService.suggest_price`.
`historical_min`, `historical_max` and `historical_avg` are present only in
the historical-data branch, hence optional. -/
structure PriceSuggestion where
  suggested_price : ℚ
  price_source : PriceSource
  competitiveness_score : ℚ
  profit_margin : ℚ
  explanation : String
  historical_min : Option ℚ
  historical_max : Option ℚ
  historical_avg : Option ℚ
deriving DecidableEq, Repr

/-- Python `min` over a list (line 81); the empty case never occurs in the
service and is given the junk value 0. -/
def listMin : List ℚ → ℚ
  | [] => 0
  | h :: t => t.foldl min h

/-- Python `max` over a list (line 82). -/
def listMax : List ℚ → ℚ
  | [] => 0
  | h :: t => t.foldl max h

/-- `statistics.mean` (line 83). -/
def listMean (l : List ℚ) : ℚ :=
  l.sum / l.length

/-- `min_price = unit_cost * (1 + (target_profit_margin or 30) / 100)`
(line 54). -/
def minPrice (unit_cost : ℚ) (target_profit_margin : Option ℚ) : ℚ :=
  unit_cost * (1 + qOr target_profit_margin 30 / 100)

/-- Target percentile selected from `competitive_level`
(lines 94-99; any unrecognized level falls through to the median). -/
def targetPercentile (competitive_level : String) : ℚ :=
  if competitive_level = "low" then 1/4
  else if competitive_level = "high" then 3/4
  else 1/2

/-- `index = min(int(len(sorted_prices) * target_percentile), len(sorted_prices) - 1)`
(line 105; Python `int` truncates, and the operand is nonnegative, so it is
the floor). -/
def percentileIndex (len : ℕ) (p : ℚ) : ℕ :=
  min (Int.toNat ⌊(len : ℚ) * p⌋) (len - 1)

/-- `sorted(price_points)` (line 102).  Sorting rationals by `≤` has a unique
result among permutations, so any correct sort models Python `sorted`. -/
def sortedPrices (price_points : List ℚ) : List ℚ :=
  List.insertionSort (· ≤ ·) price_points

/-- `target_price = sorted_prices[index]` (lines 102-106). -/
def targetPrice (price_points : List ℚ) (competitive_level : String) : ℚ :=
  (sortedPrices price_points).getD
    (percentileIndex price_points.length (targetPercentile competitive_level)) 0

/-- The suggested price before the final rounding: `min_price` in the
no-data branch (line 69), `max(target_price, min_price)` otherwise
(line 109). -/
def rawSuggestedPrice (unit_cost : ℚ) (target_profit_margin : Option ℚ)
    (competitive_level : String) (price_points : List ℚ) : ℚ :=
  match price_points with
  | [] => minPrice unit_cost target_profit_margin
  | _ :: _ => max (targetPrice price_points competitive_level)
      (minPrice unit_cost target_profit_margin)

/-- `PriceSuggestionService.suggest_price` (lines 28-150).  The repository
fetch of lines 57-64 is abstracted into the `historical_prices` argument
(the records already filtered by item/sku/customer/region/date); the
identification parameters `item_name`, `sku`, `unit`, `quantity`,
`customer_type`, `region` feed only that fetch and are dropped.  `none`
models the `ZeroDivisionError` Python raises at line 112 when
`suggested_price == 0`. -/
def suggest_price (unit_cost : ℚ) (target_profit_margin : Option ℚ)
    (competitive_level : String) (historical_prices : List HistoricalPrice) :
    Option PriceSuggestion :=
  let min_price := minPrice unit_cost target_profit_margin
  match historical_prices with
  | [] =>
    some { suggested_price := pyRound 2 min_price
           price_source := PriceSource.manual
           competitiveness_score := 0
           profit_margin := qOr target_profit_margin 30
           explanation :=
             "No historical data available. Suggested price based on cost plus target margin."
           historical_min := none
           historical_max := none
           historical_avg := none }
  | _ :: _ =>
    let price_points := historical_prices.map HistoricalPrice.unit_price
    let historical_min := listMin price_points
    let historical_max := listMax price_points
    let historical_avg := listMean price_points
    let target_price := targetPrice price_points competitive_level
    let suggested_price := max target_price min_price
    if suggested_price = 0 then none
    else
      let actual_margin := (suggested_price - unit_cost) / suggested_price * 100
      let competitiveness_score : ℚ :=
        if historical_max = historical_min then 50
        else 100 - (suggested_price - historical_min) /
          (historical_max - historical_min) * 100
      let explanation :=
        "Suggested price based on historical data (" ++
          toString historical_prices.length ++ " records). " ++
          "Historical range: $" ++ fmt2 historical_min ++ "-$" ++
          fmt2 historical_max ++ ", average: $" ++ fmt2 historical_avg ++ ". " ++
          (if competitive_level = "low" then
            "Using aggressive pricing strategy (25th percentile)."
          else if competitive_level = "high" then
            "Using premium pricing strategy (75th percentile)."
          else "Using balanced pricing strategy (median).") ++
          (if actual_margin < qOr target_profit_margin 30 then
            " Price adjusted upward to maintain minimum profit margin of " ++
              fmt1 (qOr target_profit_margin 30) ++ "%."
          else "")
      some { suggested_price := pyRound 2 suggested_price
             price_source := PriceSource.historical
             competitiveness_score := pyRound 1 competitiveness_score
             profit_margin := pyRound 1 actual_margin
             explanation := explanation
             historical_min := some (pyRound 2 historical_min)
             historical_max := some (pyRound 2 historical_max)
             historical_avg := some (pyRound 2 historical_avg) }

/-- The fields of `app.models.quotation.QuotationItem` read by the risk
service: `unit_price`, `market_average_price` (nullable). -/
structure QuotationItem where
  unit_price : ℚ
  market_average_price : Option ℚ
deriving DecidableEq, Repr

/-- Hybrid property `QuotationItem.is_competitive`
(`models/quotation.py` lines 211-216): `unit_price <= market_average_price * 1.05`
when both are truthy, otherwise Python `None`. -/
def QuotationItem.is_competitive (it : QuotationItem) : Option Bool :=
  if qTruthy it.market_average_price && (it.unit_price != 0) then
    some (decide (it.unit_price ≤ it.market_average_price.getD 0 * (105/100)))
  else none

/-- A per-factor result dictionary as built by `_calculate_risk_factor`.
`details` models the Python dict as an association list of numeric
entries. -/
structure RiskFactorResult where
  factor_id : ℕ
  name : String
  score : ℚ
  level : RiskLevel
  description : String
  weight : ℚ
  details : List (String × ℚ)
deriving DecidableEq, Repr

/-- The payload stored into the quotation's `risk_factors` JSON column by
the write-back (factors and recommendations; the `analyzed_at` wall-clock
timestamp is omitted from the model). -/
structure RiskPayload where
  factors : List RiskFactorResult
  recommendations : List String
deriving DecidableEq, Repr

/-- The fields of `app.models.quotation.Quotation` read or written by the
risk service.  `profit_margin_percentage` is the hybrid property
`profit / total_price * 100` (0 when `total_price` is 0), carried here as
the value the service reads. -/
structure Quotation where
  id : ℕ
  target_profit_margin : Option ℚ
  profit_margin_percentage : ℚ
  delivery_terms : Option String
  items : List QuotationItem
  risk_score : Option ℚ
  risk_level : Option String
  risk_factors : Option RiskPayload
deriving DecidableEq, Repr

/-- The keys of the `RiskFactor.parameters` JSON dict read by the service
(`min_acceptable_margin`, `target_margin`); an absent key is `none`. -/
structure RiskParams where
  min_acceptable_margin : Option ℚ
  target_margin : Option ℚ
deriving DecidableEq, Repr

/-- `app.models.quotation.RiskFactor` (configuration row). -/
structure RiskFactor where
  id : ℕ
  name : String
  description : Option String
  weight : ℚ
  parameters : Option RiskParams
deriving DecidableEq, Repr

/-- `RiskAnalysisService._determine_risk_level` (lines 371-382). -/
def determine_risk_level (risk_score : ℚ) : RiskLevel :=
  if risk_score < 25 then RiskLevel.low
  else if risk_score < 50 then RiskLevel.medium
  else if risk_score < 75 then RiskLevel.high
  else RiskLevel.critical

/-- The counting loop of the "Price Competitiveness" branch
(lines 308-319): `(competitive_items, uncompetitive_items, no_market_data)`. -/
def countMarketData : List QuotationItem → ℕ × ℕ × ℕ
  | [] => (0, 0, 0)
  | it :: rest =>
    let c := countMarketData rest
    if qTruthy it.market_average_price then
      if bTruthy it.is_competitive then (c.1 + 1, c.2.1, c.2.2)
      else (c.1, c.2.1 + 1, c.2.2)
    else (c.1, c.2.1, c.2.2 + 1)

/-- The rush-delivery keywords of line 354. -/
def rushKeywords : List String :=
  ["urgent", "rush", "immediate", "asap", "express"]

/-- `RiskAnalysisService._calculate_risk_factor` (lines 244-369), with the
`db_session` argument dropped (it is never used by the body). -/
def calculate_risk_factor (quotation : Quotation) (risk_factor : RiskFactor) :
    RiskFactorResult :=
  let base : RiskFactorResult :=
    { factor_id := risk_factor.id
      name := risk_factor.name
      score := 0
      level := RiskLevel.low
      description := risk_factor.description.getD ""
      weight := risk_factor.weight
      details := [] }
  let params : RiskParams := risk_factor.parameters.getD ⟨none, none⟩
  let r :=
    if risk_factor.name = "Profit Margin" then
      let target_margin := qOr quotation.target_profit_margin 30
      let actual_margin := quotation.profit_margin_percentage
      let min_acceptable := params.min_acceptable_margin.getD 15
      -- `target_acceptable = params.get("target_margin", 30.0)` (line 273)
      -- is assigned in the source but never read afterwards.
      if actual_margin < min_acceptable then
        { base with
            score := 100
            details := [("actual_margin", actual_margin),
              ("target_margin", target_margin), ("min_acceptable", min_acceptable)]
            description := "Profit margin (" ++ fmt1 actual_margin ++
              "%) is below minimum acceptable (" ++ fmt1 min_acceptable ++ "%)" }
      else if actual_margin < target_margin then
        let normalized := (actual_margin - min_acceptable) / (target_margin - min_acceptable)
        { base with
            score := 100 - normalized * 60
            details := [("actual_margin", actual_margin),
              ("target_margin", target_margin)]
            description := "Profit margin (" ++ fmt1 actual_margin ++
              "%) is below target (" ++ fmt1 target_margin ++ "%)" }
      else
        { base with
            score := 0
            details := [("actual_margin", actual_margin),
              ("target_margin", target_margin)]
            description := "Profit margin (" ++ fmt1 actual_margin ++
              "%) meets or exceeds target (" ++ fmt1 target_margin ++ "%)" }
    else if risk_factor.name = "Price Competitiveness" then
      if quotation.items.isEmpty then
        { base with score := 50
                    description := "No items to evaluate price competitiveness" }
      else
        let counts := countMarketData quotation.items
        let competitive_items := counts.1
        let uncompetitive_items := counts.2.1
        let no_market_data := counts.2.2
        let total_items := quotation.items.length
        if total_items = no_market_data then
          { base with score := 50
                      description := "No market data available for price comparison" }
        else
          let items_with_data := total_items - no_market_data
          let competitive_share : ℚ :=
            if 0 < items_with_data then (competitive_items : ℚ) / items_with_data else 0
          { base with
              score := 100 - competitive_share * 100
              details := [("competitive_items", (competitive_items : ℚ)),
                ("uncompetitive_items", (uncompetitive_items : ℚ)),
                ("no_market_data", (no_market_data : ℚ))]
              description :=
                if 0 < uncompetitive_items then
                  toString uncompetitive_items ++ " of " ++ toString total_items ++
                    " items are priced above market average"
                else "All items are competitively priced" }
    else if risk_factor.name = "Customer Payment History" then
      { base with score := 50
                  description := "Customer payment history evaluation not implemented" }
    else if risk_factor.name = "Delivery Timeline" then
      if sTruthy quotation.delivery_terms then
        let terms := (quotation.delivery_terms.getD "").toLower
        if rushKeywords.any (fun kw => strOccursIn kw terms) then
          { base with score := 80
                      description := "Rush delivery terms detected, increased risk of delivery issues" }
        else
          { base with score := 20
                      description := "Standard delivery terms" }
      else
        { base with score := 50
                    description := "No delivery terms specified" }
    else base
  { r with level := determine_risk_level r.score }

/-- `RiskAnalysisService._generate_recommendations` (lines 384-429); the
`quotation` parameter of the source is never read by the body and is
dropped. -/
def generate_recommendations (factor_results : List RiskFactorResult) :
    List String :=
  let byName := fun (n : String) => factor_results.find? (fun f => f.name = n)
  let marginRec :=
    match byName "Profit Margin" with
    | some f => if 50 < f.score then
        ["Consider increasing prices to improve profit margin or reducing costs."] else []
    | none => []
  let priceRec :=
    match byName "Price Competitiveness" with
    | some f => if 50 < f.score then
        ["Review pricing strategy as several items are priced above market average."] else []
    | none => []
  let paymentRec :=
    match byName "Customer Payment History" with
    | some f => if 50 < f.score then
        ["Review customer payment history and consider stricter payment terms."] else []
    | none => []
  let deliveryRec :=
    match byName "Delivery Timeline" with
    | some f => if 50 < f.score then
        ["Rush delivery terms detected. Ensure resources are available to meet tight deadlines."] else []
    | none => []
  let high_risk_factors := factor_results.filter
    (fun f => f.level = RiskLevel.high || f.level = RiskLevel.critical)
  let generalRec :=
    if high_risk_factors.isEmpty then []
    else ["Review high-risk factors: " ++
      String.intercalate ", " (high_risk_factors.map RiskFactorResult.name) ++ "."]
  marginRec ++ priceRec ++ paymentRec ++ deliveryRec ++ generalRec

/-- The response dictionary of `RiskAnalysisService.analyze_risk`. -/
structure RiskResponse where
  quotation_id : ℕ
  overall_risk_score : ℚ
  risk_level : RiskLevel
  factors : List RiskFactorResult
  recommendations : List String
deriving DecidableEq, Repr

/-- One invocation of the write-back collaborator
`quotation_repository.update_risk_analysis` (lines 230-240), carrying its
arguments (`analyzed_at` omitted as wall-clock). -/
structure UpdateCall where
  quotation_id : ℕ
  risk_score : ℚ
  risk_level : String
  payload : RiskPayload
deriving DecidableEq, Repr

/-- `RiskAnalysisService.analyze_risk` (lines 158-242).  The repository
reads are abstracted into arguments: `lookup` is the result of
`get_quotation_by_id` and `risk_factors` the result of
`get_all_risk_factors`.  The returned list is the trace of
`update_risk_analysis` write-back invocations. -/
def analyze_risk (quotation_id : ℕ) (lookup : Option Quotation)
    (risk_factors : List RiskFactor) : RiskResponse × List UpdateCall :=
  let base : RiskResponse :=
    { quotation_id := quotation_id
      overall_risk_score := 0
      risk_level := RiskLevel.low
      factors := []
      recommendations := [] }
  match lookup with
  | none => (base, [])
  | some quotation =>
    if risk_factors.isEmpty then
      ({ base with recommendations :=
          ["No risk factors defined in the system. Configure risk factors for proper risk analysis."] },
       [])
    else
      let factor_results := risk_factors.map (calculate_risk_factor quotation)
      let total_weight := (factor_results.map RiskFactorResult.weight).sum
      let overall_score : ℚ :=
        if 0 < total_weight then
          (factor_results.map (fun f => f.score * f.weight)).sum / total_weight
        else 0
      let risk_level := determine_risk_level overall_score
      let recommendations := generate_recommendations factor_results
      ({ base with
          overall_risk_score := pyRound 1 overall_score
          risk_level := risk_level
          factors := factor_results
          recommendations := recommendations },
       [{ quotation_id := quotation_id
          risk_score := overall_score
          risk_level := risk_level.value
          payload := { factors := factor_results
                       recommendations := recommendations } }])

/-- Effect of one `update_risk_analysis` call on the stored quotation row
(`db/repositories/quotation.py` lines 285-306). -/
def applyUpdate (stored : Quotation) (u : UpdateCall) : Quotation :=
  if stored.id = u.quotation_id then
    { stored with
        risk_score := some u.risk_score
        risk_level := some u.risk_level
        risk_factors := some u.payload }
  else stored

/-- Effect of a trace of write-back calls on the stored quotation row. -/
def applyUpdates (stored : Quotation) (calls : List UpdateCall) : Quotation :=
  calls.foldl applyUpdate stored

/-! ### Lemmas about rounding -/

theorem floor_le_rhe (x : ℚ) : ⌊x⌋ ≤ rhe x := by
  unfold rhe
  split_ifs <;> omega

theorem rhe_le_floor_add_one (x : ℚ) : rhe x ≤ ⌊x⌋ + 1 := by
  unfold rhe
  split_ifs <;> omega

theorem rhe_ge (x : ℚ) : x - 1/2 ≤ (rhe x : ℚ) := by
  have h0 : (0:ℚ) ≤ Int.fract x := Int.fract_nonneg x
  have h1 : Int.fract x < 1 := Int.fract_lt_one x
  have hd : Int.fract x = x - ⌊x⌋ := rfl
  unfold rhe
  split_ifs <;> push_cast <;> linarith

theorem rhe_le (x : ℚ) : (rhe x : ℚ) ≤ x + 1/2 := by
  have h0 : (0:ℚ) ≤ Int.fract x := Int.fract_nonneg x
  have h1 : Int.fract x < 1 := Int.fract_lt_one x
  have hd : Int.fract x = x - ⌊x⌋ := rfl
  unfold rhe
  split_ifs <;> push_cast <;> linarith

theorem rhe_mono {x y : ℚ} (h : x ≤ y) : rhe x ≤ rhe y := by
  have hfl : ⌊x⌋ ≤ ⌊y⌋ := Int.floor_mono h
  rcases lt_or_eq_of_le hfl with hlt | heq
  · calc rhe x ≤ ⌊x⌋ + 1 := rhe_le_floor_add_one x
      _ ≤ ⌊y⌋ := hlt
      _ ≤ rhe y := floor_le_rhe y
  · have hfr : Int.fract x ≤ Int.fract y := by
      have hx : Int.fract x = x - ⌊x⌋ := rfl
      have hy : Int.fract y = y - ⌊y⌋ := rfl
      have : ((⌊x⌋ : ℚ)) = ((⌊y⌋ : ℚ)) := by rw [heq]
      rw [hx, hy, this]
      linarith
    unfold rhe
    rw [heq]
    split_ifs <;> first | omega | linarith

theorem pyRound_mono (nd : ℕ) {x y : ℚ} (h : x ≤ y) : pyRound nd x ≤ pyRound nd y := by
  unfold pyRound
  have hp : (0:ℚ) < 10 ^ nd := by positivity
  have hm : x * 10 ^ nd ≤ y * 10 ^ nd :=
    mul_le_mul_of_nonneg_right h (le_of_lt hp)
  exact (div_le_div_iff_of_pos_right hp).mpr (Int.cast_le.mpr (rhe_mono hm))

theorem pyRound_ge (nd : ℕ) (x : ℚ) : x - 1/(2 * 10 ^ nd) ≤ pyRound nd x := by
  have hp : (0:ℚ) < 10 ^ nd := by positivity
  have h := rhe_ge (x * 10 ^ nd)
  unfold pyRound
  rw [le_div_iff₀ hp]
  have he : (x - 1/(2 * 10 ^ nd)) * 10 ^ nd = x * 10 ^ nd - 1/2 := by
    field_simp
    ring
  rw [he]
  exact h

theorem pyRound_le (nd : ℕ) (x : ℚ) : pyRound nd x ≤ x + 1/(2 * 10 ^ nd) := by
  have hp : (0:ℚ) < 10 ^ nd := by positivity
  have h := rhe_le (x * 10 ^ nd)
  unfold pyRound
  rw [div_le_iff₀ hp]
  have he : (x + 1/(2 * 10 ^ nd)) * 10 ^ nd = x * 10 ^ nd + 1/2 := by
    field_simp
    ring
  rw [he]
  exact h

theorem pyRound_one_hundred : pyRound 1 (100:ℚ) = 100 := by
  norm_num [pyRound, rhe, Int.fract]

theorem pyRound_one_zero : pyRound 1 (0:ℚ) = 0 := by
  norm_num [pyRound, rhe, Int.fract]

theorem pyRound_one_fifty : pyRound 1 (50:ℚ) = 50 := by
  norm_num [pyRound, rhe, Int.fract]

/-! ### Lemmas about lists, sorting and the percentile selection -/

theorem getD_mem : ∀ (l : List ℚ) (i : ℕ), i < l.length → l.getD i 0 ∈ l := by
  intro l
  induction l with
  | nil => intro i h; simp at h
  | cons a t ih =>
    intro i h
    cases i with
    | zero => simp
    | succ j =>
      rw [List.getD_cons_succ]
      exact List.mem_cons_of_mem a (ih j (by simpa using h))

theorem sorted_getD_mono : ∀ {l : List ℚ}, List.Sorted (· ≤ ·) l →
    ∀ {i j : ℕ}, i ≤ j → j < l.length → l.getD i 0 ≤ l.getD j 0 := by
  intro l
  induction l with
  | nil => intro _ i j _ hj; simp at hj
  | cons a t ih =>
    intro hl i j hij hj
    match i, j with
    | 0, 0 => simp
    | 0, j + 1 =>
      rw [List.getD_cons_zero, List.getD_cons_succ]
      exact (List.sorted_cons.mp hl).1 _ (getD_mem t j (by simpa using hj))
    | i + 1, j + 1 =>
      rw [List.getD_cons_succ, List.getD_cons_succ]
      exact ih (List.sorted_cons.mp hl).2 (by omega) (by simpa using hj)

theorem foldl_min_le_init : ∀ (t : List ℚ) (a : ℚ), t.foldl min a ≤ a := by
  intro t
  induction t with
  | nil => simp
  | cons b t ih =>
    intro a
    rw [List.foldl_cons]
    exact le_trans (ih (min a b)) (min_le_left a b)

theorem foldl_min_le_mem : ∀ (t : List ℚ) (a x : ℚ), x ∈ t → t.foldl min a ≤ x := by
  intro t
  induction t with
  | nil => intro a x hx; simp at hx
  | cons b t ih =>
    intro a x hx
    rw [List.foldl_cons]
    rcases List.mem_cons.mp hx with rfl | hx
    · exact le_trans (foldl_min_le_init t (min a x)) (min_le_right a x)
    · exact ih (min a b) x hx

theorem init_le_foldl_max : ∀ (t : List ℚ) (a : ℚ), a ≤ t.foldl max a := by
  intro t
  induction t with
  | nil => simp
  | cons b t ih =>
    intro a
    rw [List.foldl_cons]
    exact le_trans (le_max_left a b) (ih (max a b))

theorem mem_le_foldl_max : ∀ (t : List ℚ) (a x : ℚ), x ∈ t → x ≤ t.foldl max a := by
  intro t
  induction t with
  | nil => intro a x hx; simp at hx
  | cons b t ih =>
    intro a x hx
    rw [List.foldl_cons]
    rcases List.mem_cons.mp hx with rfl | hx
    · exact le_trans (le_max_right a x) (init_le_foldl_max t (max a x))
    · exact ih (max a b) x hx

theorem listMin_le_mem (l : List ℚ) (x : ℚ) (hx : x ∈ l) : listMin l ≤ x := by
  cases l with
  | nil => simp at hx
  | cons a t =>
    rcases List.mem_cons.mp hx with rfl | hx
    · exact foldl_min_le_init t x
    · exact foldl_min_le_mem t a x hx

theorem mem_le_listMax (l : List ℚ) (x : ℚ) (hx : x ∈ l) : x ≤ listMax l := by
  cases l with
  | nil => simp at hx
  | cons a t =>
    rcases List.mem_cons.mp hx with rfl | hx
    · exact init_le_foldl_max t x
    · exact mem_le_foldl_max t a x hx

theorem sortedPrices_length (l : List ℚ) : (sortedPrices l).length = l.length :=
  (List.perm_insertionSort (· ≤ ·) l).length_eq

theorem sortedPrices_sorted (l : List ℚ) : List.Sorted (· ≤ ·) (sortedPrices l) :=
  List.sorted_insertionSort (· ≤ ·) l

theorem mem_of_mem_sortedPrices {l : List ℚ} {x : ℚ} (h : x ∈ sortedPrices l) : x ∈ l :=
  ((List.perm_insertionSort (· ≤ ·) l).mem_iff).mp h

theorem percentileIndex_mono (n : ℕ) {p q : ℚ} (h : p ≤ q) :
    percentileIndex n p ≤ percentileIndex n q := by
  unfold percentileIndex
  have hf : ⌊(n : ℚ) * p⌋ ≤ ⌊(n : ℚ) * q⌋ :=
    Int.floor_mono (mul_le_mul_of_nonneg_left h (by positivity))
  exact min_le_min (Int.toNat_le_toNat hf) le_rfl

theorem percentileIndex_lt (n : ℕ) (p : ℚ) (hn : 1 ≤ n) : percentileIndex n p < n := by
  unfold percentileIndex
  have := min_le_right (Int.toNat ⌊(n : ℚ) * p⌋) (n - 1)
  omega

theorem targetPrice_mem {l : List ℚ} (hl : l ≠ []) (cl : String) :
    targetPrice l cl ∈ l := by
  unfold targetPrice
  apply mem_of_mem_sortedPrices
  apply getD_mem
  rw [sortedPrices_length]
  exact percentileIndex_lt l.length _ (by
    cases l with
    | nil => exact absurd rfl hl
    | cons a t => simp)

theorem targetPrice_mono {l : List ℚ} (hl : l ≠ []) {c₁ c₂ : String}
    (h : targetPercentile c₁ ≤ targetPercentile c₂) :
    targetPrice l c₁ ≤ targetPrice l c₂ := by
  unfold targetPrice
  have hn : 1 ≤ l.length := by
    cases l with
    | nil => exact absurd rfl hl
    | cons a t => simp
  apply sorted_getD_mono (sortedPrices_sorted l)
  · exact percentileIndex_mono l.length h
  · rw [sortedPrices_length]
    exact percentileIndex_lt l.length _ hn

/-! ### Projection lemmas for `suggest_price` -/

theorem suggested_price_eq (uc : ℚ) (tpm : Option ℚ) (cl : String)
    (hp : List HistoricalPrice) (r : PriceSuggestion)
    (h : suggest_price uc tpm cl hp = some r) :
    r.suggested_price =
      pyRound 2 (rawSuggestedPrice uc tpm cl (hp.map HistoricalPrice.unit_price)) := by
  cases hp with
  | nil =>
    simp only [suggest_price] at h
    cases h
    rfl
  | cons a t =>
    simp only [suggest_price] at h
    split at h
    next => exact absurd h (by simp)
    next =>
      cases h
      rfl

theorem suggest_price_cons_eq_none_iff (uc : ℚ) (tpm : Option ℚ) (cl : String)
    (a : HistoricalPrice) (t : List HistoricalPrice) :
    suggest_price uc tpm cl (a :: t) = none ↔
      max (targetPrice ((a :: t).map HistoricalPrice.unit_price) cl) (minPrice uc tpm) = 0 := by
  simp only [suggest_price]
  split
  next hc => exact iff_of_true rfl hc
  next hc => exact iff_of_false (by simp) hc

theorem suggest_price_cons_map_suggested (uc : ℚ) (tpm : Option ℚ) (cl : String)
    (a : HistoricalPrice) (t : List HistoricalPrice)
    (h : ¬ max (targetPrice ((a :: t).map HistoricalPrice.unit_price) cl) (minPrice uc tpm) = 0) :
    (suggest_price uc tpm cl (a :: t)).map PriceSuggestion.suggested_price =
      some (pyRound 2
        (max (targetPrice ((a :: t).map HistoricalPrice.unit_price) cl) (minPrice uc tpm))) := by
  simp only [suggest_price]
  split
  next hc => exact absurd hc h
  next => rfl

theorem suggest_price_cons_map_cscore (uc : ℚ) (tpm : Option ℚ) (cl : String)
    (a : HistoricalPrice) (t : List HistoricalPrice)
    (h : ¬ max (targetPrice ((a :: t).map HistoricalPrice.unit_price) cl) (minPrice uc tpm) = 0) :
    (suggest_price uc tpm cl (a :: t)).map PriceSuggestion.competitiveness_score =
      some (pyRound 1
        (if listMax ((a :: t).map HistoricalPrice.unit_price) =
            listMin ((a :: t).map HistoricalPrice.unit_price) then 50
         else 100 -
           (max (targetPrice ((a :: t).map HistoricalPrice.unit_price) cl) (minPrice uc tpm) -
             listMin ((a :: t).map HistoricalPrice.unit_price)) /
           (listMax ((a :: t).map HistoricalPrice.unit_price) -
             listMin ((a :: t).map HistoricalPrice.unit_price)) * 100)) := by
  simp only [suggest_price]
  split
  next hc => exact absurd hc h
  next => rfl

theorem cscore_eq (uc : ℚ) (tpm : Option ℚ) (cl : String)
    (a : HistoricalPrice) (t : List HistoricalPrice) (r : PriceSuggestion)
    (h : suggest_price uc tpm cl (a :: t) = some r) :
    r.competitiveness_score =
      pyRound 1
        (if listMax ((a :: t).map HistoricalPrice.unit_price) =
            listMin ((a :: t).map HistoricalPrice.unit_price) then 50
         else 100 -
           (rawSuggestedPrice uc tpm cl ((a :: t).map HistoricalPrice.unit_price) -
             listMin ((a :: t).map HistoricalPrice.unit_price)) /
           (listMax ((a :: t).map HistoricalPrice.unit_price) -
             listMin ((a :: t).map HistoricalPrice.unit_price)) * 100) := by
  simp only [suggest_price] at h
  split at h
  next => exact absurd h (by simp)
  next =>
    cases h
    rfl

/-! ### Lemmas about the margin floor and the raw suggested price -/

theorem qOr_some_ge (t : ℚ) (ht : 0 ≤ t) : t ≤ qOr (some t) 30 := by
  simp only [qOr]
  split_ifs with h
  · linarith
  · exact le_rfl

theorem qOr_some_nonneg (t : ℚ) (ht : 0 ≤ t) : 0 ≤ qOr (some t) 30 := by
  simp only [qOr]
  split_ifs with h
  · norm_num
  · exact ht

theorem minPrice_ge (uc t : ℚ) (hc : 0 ≤ uc) (ht : 0 ≤ t) :
    uc * (1 + t / 100) ≤ minPrice uc (some t) := by
  unfold minPrice
  have h := qOr_some_ge t ht
  have h2 : 1 + t / 100 ≤ 1 + qOr (some t) 30 / 100 := by linarith
  exact mul_le_mul_of_nonneg_left h2 hc

theorem minPrice_pos (uc t : ℚ) (hc : 0 < uc) (ht : 0 ≤ t) :
    0 < minPrice uc (some t) := by
  unfold minPrice
  have h := qOr_some_nonneg t ht
  have h2 : (0:ℚ) < 1 + qOr (some t) 30 / 100 := by linarith
  exact mul_pos hc h2

theorem minPrice_le_raw (uc : ℚ) (tpm : Option ℚ) (cl : String) (pts : List ℚ) :
    minPrice uc tpm ≤ rawSuggestedPrice uc tpm cl pts := by
  cases pts with
  | nil => exact le_rfl
  | cons b l => exact le_max_right _ _

theorem raw_ge_floor (uc t : ℚ) (cl : String) (pts : List ℚ)
    (hc : 0 ≤ uc) (ht : 0 ≤ t) :
    uc * (1 + t / 100) ≤ rawSuggestedPrice uc (some t) cl pts :=
  le_trans (minPrice_ge uc t hc ht) (minPrice_le_raw uc (some t) cl pts)

theorem listMin_le_targetPrice {l : List ℚ} (hl : l ≠ []) (cl : String) :
    listMin l ≤ targetPrice l cl :=
  listMin_le_mem l _ (targetPrice_mem hl cl)

theorem listMin_le_listMax {l : List ℚ} (hl : l ≠ []) : listMin l ≤ listMax l := by
  cases l with
  | nil => exact absurd rfl hl
  | cons a t =>
    exact le_trans (foldl_min_le_init t a) (init_le_foldl_max t a)

theorem targetPercentile_low : targetPercentile "low" = 1/4 := rfl

theorem targetPercentile_medium : targetPercentile "medium" = 1/2 := rfl

theorem targetPercentile_high : targetPercentile "high" = 3/4 := rfl

/-! ### Claim C1 -/

/-- C1 (amended): with `unit_cost ≥ 0` and `target_profit_margin ≥ 0`, the
suggested price *before the final rounding* is at least the margin floor
`unit_cost * (1 + target_profit_margin/100)` in both branches, and the
returned `suggested_price` — which is that value rounded to 2 decimals — is
at least the margin floor minus `0.005` (half of the last kept decimal).
The original claim, which asserts the floor of the rounded value itself,
fails: see the counterexample. -/
theorem margin_floor_up_to_rounding (uc t : ℚ) (cl : String)
    (hp : List HistoricalPrice) (hc : 0 ≤ uc) (ht : 0 ≤ t) :
    uc * (1 + t / 100) ≤
      rawSuggestedPrice uc (some t) cl (hp.map HistoricalPrice.unit_price) ∧
    ∀ r : PriceSuggestion, suggest_price uc (some t) cl hp = some r →
      uc * (1 + t / 100) - 1/200 ≤ r.suggested_price := by
  refine ⟨raw_ge_floor uc t cl _ hc ht, ?_⟩
  intro r h
  rw [suggested_price_eq uc (some t) cl hp r h]
  have h1 := pyRound_ge 2 (rawSuggestedPrice uc (some t) cl (hp.map HistoricalPrice.unit_price))
  have h2 := raw_ge_floor uc t cl (hp.map HistoricalPrice.unit_price) hc ht
  norm_num at h1
  linarith

/-- Witness for C1 at `unit_cost = 100`, `target_profit_margin = 30`, no
historical data: the returned price 130 is above the floor minus 0.005, and
the raw price meets the floor exactly. -/
theorem margin_floor_up_to_rounding_witness :
    (100:ℚ) * (1 + 30 / 100) ≤
      rawSuggestedPrice 100 (some 30) "medium" (List.map HistoricalPrice.unit_price []) ∧
    (100:ℚ) * (1 + 30 / 100) - 1/200 ≤ (130:ℚ) := by
  have h := margin_floor_up_to_rounding 100 30 "medium" [] (by norm_num) (by norm_num)
  refine ⟨h.1, ?_⟩
  have h2 := h.2
    { suggested_price := 130
      price_source := PriceSource.manual
      competitiveness_score := 0
      profit_margin := 30
      explanation :=
        "No historical data available. Suggested price based on cost plus target margin."
      historical_min := none
      historical_max := none
      historical_avg := none }
    (by
      simp only [suggest_price]
      norm_num [minPrice, qOr, pyRound, rhe, Int.fract])
  exact h2

/-- C1 counterexample: at `unit_cost = 9.095`, `target_profit_margin = 10`
and no historical data, the margin floor is `9.095 * 1.1 = 10.0045`, but the
returned `suggested_price` is `round(10.0045, 2) = 10.0 < 10.0045`. -/
theorem margin_floor_counterexample :
    (suggest_price (1819/200) (some 10) "medium" []).map PriceSuggestion.suggested_price =
      some 10 ∧
    ¬ ((1819/200 : ℚ) * (1 + 10 / 100) ≤ 10) := by
  constructor
  · simp only [suggest_price]
    norm_num [minPrice, qOr, pyRound, rhe, Int.fract]
  · norm_num

/-! ### Claim C5 -/

/-- C5 (confirmed): on a fixed non-empty historical price set and fixed
`unit_cost` and `target_profit_margin`, the suggested prices returned for
`competitive_level` low / medium / high are nondecreasing: the nearest-rank
percentile index is monotone in the percentile, the sorted-list lookup, the
max with the margin floor, and the final half-even rounding all preserve
the order. -/
theorem competitive_levels_monotone (uc : ℚ) (tpm : Option ℚ)
    (a : HistoricalPrice) (t : List HistoricalPrice) (r₁ r₂ r₃ : ℚ)
    (h₁ : (suggest_price uc tpm "low" (a :: t)).map PriceSuggestion.suggested_price = some r₁)
    (h₂ : (suggest_price uc tpm "medium" (a :: t)).map PriceSuggestion.suggested_price = some r₂)
    (h₃ : (suggest_price uc tpm "high" (a :: t)).map PriceSuggestion.suggested_price = some r₃) :
    r₁ ≤ r₂ ∧ r₂ ≤ r₃ := by
  obtain ⟨s₁, hs₁, hr₁⟩ := Option.map_eq_some'.mp h₁
  obtain ⟨s₂, hs₂, hr₂⟩ := Option.map_eq_some'.mp h₂
  obtain ⟨s₃, hs₃, hr₃⟩ := Option.map_eq_some'.mp h₃
  have hne : (a :: t).map HistoricalPrice.unit_price ≠ [] := by simp
  have e₁ := suggested_price_eq uc tpm "low" (a :: t) s₁ hs₁
  have e₂ := suggested_price_eq uc tpm "medium" (a :: t) s₂ hs₂
  have e₃ := suggested_price_eq uc tpm "high" (a :: t) s₃ hs₃
  have hm₁ : targetPrice ((a :: t).map HistoricalPrice.unit_price) "low" ≤
      targetPrice ((a :: t).map HistoricalPrice.unit_price) "medium" := by
    apply targetPrice_mono hne
    rw [targetPercentile_low, targetPercentile_medium]
    norm_num
  have hm₂ : targetPrice ((a :: t).map HistoricalPrice.unit_price) "medium" ≤
      targetPrice ((a :: t).map HistoricalPrice.unit_price) "high" := by
    apply targetPrice_mono hne
    rw [targetPercentile_medium, targetPercentile_high]
    norm_num
  have hraw₁ : rawSuggestedPrice uc tpm "low" ((a :: t).map HistoricalPrice.unit_price) ≤
      rawSuggestedPrice uc tpm "medium" ((a :: t).map HistoricalPrice.unit_price) :=
    max_le_max hm₁ le_rfl
  have hraw₂ : rawSuggestedPrice uc tpm "medium" ((a :: t).map HistoricalPrice.unit_price) ≤
      rawSuggestedPrice uc tpm "high" ((a :: t).map HistoricalPrice.unit_price) :=
    max_le_max hm₂ le_rfl
  constructor
  · rw [← hr₁, ← hr₂, e₁, e₂]
    exact pyRound_mono 2 hraw₁
  · rw [← hr₂, ← hr₃, e₂, e₃]
    exact pyRound_mono 2 hraw₂

/-- Witness for C5 on prices `{1, 2}` with `unit_cost = 0`: low suggests 1,
medium and high suggest 2, and `1 ≤ 2 ∧ 2 ≤ 2`. -/
theorem competitive_levels_monotone_witness : (1:ℚ) ≤ 2 ∧ (2:ℚ) ≤ 2 :=
  competitive_levels_monotone 0 (some 30) ⟨1⟩ [⟨2⟩] 1 2 2
    (by
      rw [suggest_price_cons_map_suggested 0 (some 30) "low" ⟨1⟩ [⟨2⟩] (by
        norm_num [targetPrice, sortedPrices, percentileIndex, targetPercentile_low,
          targetPercentile_medium, targetPercentile_high,
          minPrice, qOr, List.insertionSort, List.orderedInsert])]
      norm_num [targetPrice, sortedPrices, percentileIndex, targetPercentile_low,
        targetPercentile_medium, targetPercentile_high,
        minPrice, qOr, List.insertionSort, List.orderedInsert, pyRound, rhe, Int.fract])
    (by
      rw [suggest_price_cons_map_suggested 0 (some 30) "medium" ⟨1⟩ [⟨2⟩] (by
        norm_num [targetPrice, sortedPrices, percentileIndex, targetPercentile_low,
          targetPercentile_medium, targetPercentile_high,
          minPrice, qOr, List.insertionSort, List.orderedInsert])]
      norm_num [targetPrice, sortedPrices, percentileIndex, targetPercentile_low,
        targetPercentile_medium, targetPercentile_high,
        minPrice, qOr, List.insertionSort, List.orderedInsert, pyRound, rhe, Int.fract])
    (by
      rw [suggest_price_cons_map_suggested 0 (some 30) "high" ⟨1⟩ [⟨2⟩] (by
        norm_num [targetPrice, sortedPrices, percentileIndex, targetPercentile_low,
          targetPercentile_medium, targetPercentile_high,
          minPrice, qOr, List.insertionSort, List.orderedInsert])]
      norm_num [targetPrice, sortedPrices, percentileIndex, targetPercentile_low,
        targetPercentile_medium, targetPercentile_high,
        minPrice, qOr, List.insertionSort, List.orderedInsert, pyRound, rhe, Int.fract])

/-! ### Claim C6 -/

/-- C6 (amended): with a non-empty historical price list the returned
`competitiveness_score` is 50 when `historical_max == historical_min`, and
otherwise `round(100 - normalized_position*100, 1)`; it is always at most
100, and it is nonnegative — hence in `[0, 100]` — whenever the suggested
price does not exceed `historical_max`.  The original claim's unconditional
lower bound 0 fails when the margin floor pushes the suggested price above
the historical maximum: see the counterexample. -/
theorem competitiveness_score_characterization (uc : ℚ) (tpm : Option ℚ) (cl : String)
    (a : HistoricalPrice) (t : List HistoricalPrice) (r : PriceSuggestion)
    (h : suggest_price uc tpm cl (a :: t) = some r) :
    r.competitiveness_score ≤ 100 ∧
    (listMax ((a :: t).map HistoricalPrice.unit_price) =
        listMin ((a :: t).map HistoricalPrice.unit_price) →
      r.competitiveness_score = 50) ∧
    (listMax ((a :: t).map HistoricalPrice.unit_price) ≠
        listMin ((a :: t).map HistoricalPrice.unit_price) →
      r.competitiveness_score = pyRound 1 (100 -
        (rawSuggestedPrice uc tpm cl ((a :: t).map HistoricalPrice.unit_price) -
          listMin ((a :: t).map HistoricalPrice.unit_price)) /
        (listMax ((a :: t).map HistoricalPrice.unit_price) -
          listMin ((a :: t).map HistoricalPrice.unit_price)) * 100)) ∧
    (rawSuggestedPrice uc tpm cl ((a :: t).map HistoricalPrice.unit_price) ≤
        listMax ((a :: t).map HistoricalPrice.unit_price) →
      0 ≤ r.competitiveness_score) := by
  have hcs := cscore_eq uc tpm cl a t r h
  have hne : (a :: t).map HistoricalPrice.unit_price ≠ [] := by simp
  by_cases heq : listMax ((a :: t).map HistoricalPrice.unit_price) =
      listMin ((a :: t).map HistoricalPrice.unit_price)
  · rw [if_pos heq, pyRound_one_fifty] at hcs
    exact ⟨by rw [hcs]; norm_num, fun _ => hcs, fun hne2 => absurd heq hne2,
      fun _ => by rw [hcs]; norm_num⟩
  · rw [if_neg heq] at hcs
    have hminmax : listMin ((a :: t).map HistoricalPrice.unit_price) ≤
        listMax ((a :: t).map HistoricalPrice.unit_price) := listMin_le_listMax hne
    have hlt : listMin ((a :: t).map HistoricalPrice.unit_price) <
        listMax ((a :: t).map HistoricalPrice.unit_price) :=
      lt_of_le_of_ne hminmax (fun he => heq he.symm)
    have hrawmin : listMin ((a :: t).map HistoricalPrice.unit_price) ≤
        rawSuggestedPrice uc tpm cl ((a :: t).map HistoricalPrice.unit_price) :=
      le_trans (listMin_le_targetPrice hne cl) (le_max_left _ _)
    refine ⟨?_, fun he => absurd he heq, fun _ => hcs, ?_⟩
    · have hnn : 0 ≤ (rawSuggestedPrice uc tpm cl ((a :: t).map HistoricalPrice.unit_price) -
          listMin ((a :: t).map HistoricalPrice.unit_price)) /
          (listMax ((a :: t).map HistoricalPrice.unit_price) -
            listMin ((a :: t).map HistoricalPrice.unit_price)) :=
        div_nonneg (by linarith) (by linarith)
      have hle : 100 - (rawSuggestedPrice uc tpm cl ((a :: t).map HistoricalPrice.unit_price) -
          listMin ((a :: t).map HistoricalPrice.unit_price)) /
          (listMax ((a :: t).map HistoricalPrice.unit_price) -
            listMin ((a :: t).map HistoricalPrice.unit_price)) * 100 ≤ (100:ℚ) := by nlinarith
      rw [hcs]
      calc pyRound 1 _ ≤ pyRound 1 100 := pyRound_mono 1 hle
        _ = 100 := pyRound_one_hundred
    · intro hub
      have hfrac : (rawSuggestedPrice uc tpm cl ((a :: t).map HistoricalPrice.unit_price) -
          listMin ((a :: t).map HistoricalPrice.unit_price)) /
          (listMax ((a :: t).map HistoricalPrice.unit_price) -
            listMin ((a :: t).map HistoricalPrice.unit_price)) ≤ 1 := by
        rw [div_le_one (by linarith)]
        linarith
      have hge : (0:ℚ) ≤ 100 - (rawSuggestedPrice uc tpm cl ((a :: t).map HistoricalPrice.unit_price) -
          listMin ((a :: t).map HistoricalPrice.unit_price)) /
          (listMax ((a :: t).map HistoricalPrice.unit_price) -
            listMin ((a :: t).map HistoricalPrice.unit_price)) * 100 := by nlinarith
      rw [hcs]
      calc (0:ℚ) = pyRound 1 0 := pyRound_one_zero.symm
        _ ≤ pyRound 1 _ := pyRound_mono 1 hge

/-- Witness for C6 on prices `{1, 2}` with `unit_cost = 0`,
`competitive_level = "medium"`: the suggested price is 2 and the
competitiveness score is 0, which satisfies all four conjuncts. -/
theorem competitiveness_score_characterization_witness :
    ((0:ℚ) ≤ 100) ∧ ((0:ℚ) = pyRound 1 (100 - (2 - 1) / (2 - 1) * 100)) := by
  have h := competitiveness_score_characterization 0 (some 30) "medium" ⟨1⟩ [⟨2⟩]
    { suggested_price := 2
      price_source := PriceSource.historical
      competitiveness_score := 0
      profit_margin := pyRound 1 ((2 - 0) / 2 * 100)
      explanation := "Suggested price based on historical data (" ++ toString 2 ++
        " records). " ++ "Historical range: $" ++ fmt2 1 ++ "-$" ++ fmt2 2 ++
        ", average: $" ++ fmt2 (3/2) ++ ". " ++
        (if ("medium" : String) = "low" then "Using aggressive pricing strategy (25th percentile)."
         else if ("medium" : String) = "high" then "Using premium pricing strategy (75th percentile)."
         else "Using balanced pricing strategy (median).")
      historical_min := some 1
      historical_max := some 2
      historical_avg := some (3/2) }
    (by
      simp only [suggest_price]
      norm_num [targetPrice, sortedPrices, percentileIndex, targetPercentile_low,
        targetPercentile_medium, targetPercentile_high,
        minPrice, qOr, List.insertionSort, List.orderedInsert, listMin, listMax,
        listMean, pyRound, rhe, Int.fract])
  refine ⟨?_, ?_⟩
  · have h1 := h.1
    simpa using h1
  · have h3 := h.2.2.1 (by norm_num [listMin, listMax])
    simpa [listMin, listMax, rawSuggestedPrice, targetPrice, sortedPrices,
      percentileIndex, targetPercentile_low, targetPercentile_medium,
      targetPercentile_high, minPrice, qOr,
      List.insertionSort, List.orderedInsert] using h3

/-- C6 counterexample: `unit_cost = 1000`, margin 30, prices `{1, 2}`: the
margin floor forces `suggested_price = 1300`, so
`normalized_position = (1300-1)/(2-1) = 1299` and the returned
`competitiveness_score` is `100 - 129900 = -129800`, far below 0. -/
theorem competitiveness_score_counterexample :
    (suggest_price 1000 (some 30) "medium" [⟨1⟩, ⟨2⟩]).map
        PriceSuggestion.competitiveness_score = some (-129800) ∧
    ((-129800 : ℚ) < 0) := by
  constructor
  · rw [suggest_price_cons_map_cscore 1000 (some 30) "medium" ⟨1⟩ [⟨2⟩] (by
      norm_num [targetPrice, sortedPrices, percentileIndex, targetPercentile_low,
        targetPercentile_medium, targetPercentile_high,
        minPrice, qOr, List.insertionSort, List.orderedInsert])]
    norm_num [targetPrice, sortedPrices, percentileIndex, targetPercentile_low,
      targetPercentile_medium, targetPercentile_high,
      minPrice, qOr, List.insertionSort, List.orderedInsert, listMin, listMax,
      pyRound, rhe, Int.fract]
  · norm_num

/-! ### Claim C9 -/

/-- C9 (amended): with a non-empty historical price list and
`target_profit_margin ≥ 0`, the suggested price used as the divisor of
`actual_margin` is strictly positive — and the call returns a value rather
than raising — provided `unit_cost > 0`.  The original claim's hypothesis
`unit_cost ≥ 0` is not enough: at `unit_cost = 0` with an all-zero price
list the divisor is 0 (see the counterexample). -/
theorem suggested_price_divisor_positive (uc t : ℚ) (cl : String)
    (hp : List HistoricalPrice) (hc : 0 < uc) (ht : 0 ≤ t) :
    0 < rawSuggestedPrice uc (some t) cl (hp.map HistoricalPrice.unit_price) ∧
    (suggest_price uc (some t) cl hp).isSome = true := by
  have hpos : 0 < minPrice uc (some t) := minPrice_pos uc t hc ht
  have hraw : 0 < rawSuggestedPrice uc (some t) cl (hp.map HistoricalPrice.unit_price) :=
    lt_of_lt_of_le hpos (minPrice_le_raw uc (some t) cl _)
  refine ⟨hraw, ?_⟩
  cases hp with
  | nil => rfl
  | cons a l =>
    have hne : ¬ suggest_price uc (some t) cl (a :: l) = none := by
      rw [suggest_price_cons_eq_none_iff]
      intro h0
      have he : rawSuggestedPrice uc (some t) cl ((a :: l).map HistoricalPrice.unit_price) =
          max (targetPrice ((a :: l).map HistoricalPrice.unit_price) cl)
            (minPrice uc (some t)) := rfl
      rw [he, h0] at hraw
      exact absurd hraw (by norm_num)
    cases hsp : suggest_price uc (some t) cl (a :: l) with
    | none => exact absurd hsp hne
    | some r => rfl

/-- Witness for C9 at `unit_cost = 100`, margin 30, prices `{1, 2}`. -/
theorem suggested_price_divisor_positive_witness :
    0 < rawSuggestedPrice 100 (some 30) "medium"
        ([⟨1⟩, ⟨2⟩].map HistoricalPrice.unit_price) ∧
    (suggest_price 100 (some 30) "medium" [⟨1⟩, ⟨2⟩]).isSome = true :=
  suggested_price_divisor_positive 100 30 "medium" [⟨1⟩, ⟨2⟩] (by norm_num) (by norm_num)

/-- C9 counterexample: at `unit_cost = 0` (allowed by the claim's
`unit_cost ≥ 0`) with the non-negative historical price list `{0}`, the
suggested price is 0 and the `actual_margin` division raises
`ZeroDivisionError` (modelled as `none`). -/
theorem suggested_price_divisor_counterexample :
    suggest_price 0 (some 30) "medium" [⟨0⟩] = none := by
  rw [suggest_price_cons_eq_none_iff]
  norm_num [targetPrice, sortedPrices, percentileIndex, targetPercentile_low,
    targetPercentile_medium, targetPercentile_high,
    minPrice, qOr, List.insertionSort, List.orderedInsert]

/-! ### Lemmas about `calculate_risk_factor` and `analyze_risk` -/

/-- Score of the "Profit Margin" factor: the threshold is the quotation's
`target_profit_margin` (with Python-truthiness default 30); the factor's
`target_margin` parameter is read into a local but never used. -/
theorem calc_profit_margin_score (q : Quotation) (f : RiskFactor)
    (hname : f.name = "Profit Margin") :
    (calculate_risk_factor q f).score =
      (if q.profit_margin_percentage <
          (f.parameters.getD ⟨none, none⟩).min_acceptable_margin.getD 15 then (100:ℚ)
       else if q.profit_margin_percentage < qOr q.target_profit_margin 30 then
         100 - (q.profit_margin_percentage -
             (f.parameters.getD ⟨none, none⟩).min_acceptable_margin.getD 15) /
           (qOr q.target_profit_margin 30 -
             (f.parameters.getD ⟨none, none⟩).min_acceptable_margin.getD 15) * 60
       else 0) := by
  simp only [calculate_risk_factor, hname]
  simp only [if_true]
  split_ifs <;> rfl

/-- A factor whose name is none of the four recognized ones keeps the
zero-score base result. -/
theorem calc_unknown (q : Quotation) (f : RiskFactor)
    (h1 : ¬ f.name = "Profit Margin") (h2 : ¬ f.name = "Price Competitiveness")
    (h3 : ¬ f.name = "Customer Payment History") (h4 : ¬ f.name = "Delivery Timeline") :
    calculate_risk_factor q f =
      { factor_id := f.id, name := f.name, score := 0, level := RiskLevel.low,
        description := f.description.getD "", weight := f.weight, details := [] } := by
  simp only [calculate_risk_factor]
  rw [if_neg h1, if_neg h2, if_neg h3, if_neg h4]
  simp [determine_risk_level]

/-- Every branch of `_calculate_risk_factor` keeps the configured weight. -/
theorem calc_weight (q : Quotation) (f : RiskFactor) :
    (calculate_risk_factor q f).weight = f.weight := by
  simp only [calculate_risk_factor]
  split_ifs <;> rfl

/-- Unfolding of `analyze_risk` on a quotation and a non-empty factor list. -/
theorem analyze_risk_cons_spec (qid : ℕ) (q : Quotation) (g : RiskFactor)
    (gs : List RiskFactor) :
    analyze_risk qid (some q) (g :: gs) =
      (let factor_results := (g :: gs).map (calculate_risk_factor q)
       let total_weight := (factor_results.map RiskFactorResult.weight).sum
       let overall_score : ℚ :=
         if 0 < total_weight then
           (factor_results.map (fun f => f.score * f.weight)).sum / total_weight
         else 0
       ({ quotation_id := qid
          overall_risk_score := pyRound 1 overall_score
          risk_level := determine_risk_level overall_score
          factors := factor_results
          recommendations := generate_recommendations factor_results },
        [{ quotation_id := qid
           risk_score := overall_score
           risk_level := (determine_risk_level overall_score).value
           payload := { factors := factor_results
                        recommendations := generate_recommendations factor_results } }])) :=
  rfl

/-! ### Claim C2 -/

/-- C2 (amended): the "Profit Margin" factor scores 100 when the actual
margin is below `min_acceptable_margin`; otherwise, when it is below the
*quotation's* `target_profit_margin` (Python-truthiness default 30 — the
factor's `target_margin` parameter is read but unused), the score is
`100 - normalized*60` with `normalized = (m - min_acceptable)/(quotation_target
- min_acceptable)`, which lies in the 40-100 range; otherwise 0.  With
params `{min_acceptable_margin: 15}` and quotation target 30, `m = 15`
scores exactly 100 and `m = 22.5` scores 70 (not 60: midpoint
interpolation is `100 - 0.5*60 = 70`). -/
theorem profit_margin_factor_scoring (q : Quotation) (f : RiskFactor)
    (hname : f.name = "Profit Margin") :
    (q.profit_margin_percentage <
        (f.parameters.getD ⟨none, none⟩).min_acceptable_margin.getD 15 →
      (calculate_risk_factor q f).score = 100) ∧
    ((f.parameters.getD ⟨none, none⟩).min_acceptable_margin.getD 15 ≤
        q.profit_margin_percentage →
      q.profit_margin_percentage < qOr q.target_profit_margin 30 →
      (calculate_risk_factor q f).score =
        100 - (q.profit_margin_percentage -
            (f.parameters.getD ⟨none, none⟩).min_acceptable_margin.getD 15) /
          (qOr q.target_profit_margin 30 -
            (f.parameters.getD ⟨none, none⟩).min_acceptable_margin.getD 15) * 60 ∧
      40 < (calculate_risk_factor q f).score ∧
      (calculate_risk_factor q f).score ≤ 100) ∧
    ((f.parameters.getD ⟨none, none⟩).min_acceptable_margin.getD 15 ≤
        q.profit_margin_percentage →
      qOr q.target_profit_margin 30 ≤ q.profit_margin_percentage →
      (calculate_risk_factor q f).score = 0) ∧
    (calculate_risk_factor ⟨1, some 30, 15, none, [], none, none, none⟩
      ⟨1, "Profit Margin", none, 1, some ⟨some 15, some 30⟩⟩).score = 100 ∧
    (calculate_risk_factor ⟨1, some 30, 45/2, none, [], none, none, none⟩
      ⟨1, "Profit Margin", none, 1, some ⟨some 15, some 30⟩⟩).score = 70 := by
  have hs := calc_profit_margin_score q f hname
  refine ⟨?_, ?_, ?_, ?_, ?_⟩
  · intro h
    rw [hs, if_pos h]
  · intro h1 h2
    rw [hs, if_neg (not_lt.mpr h1), if_pos h2]
    have hTm : (f.parameters.getD ⟨none, none⟩).min_acceptable_margin.getD 15 <
        qOr q.target_profit_margin 30 := lt_of_le_of_lt h1 h2
    have hd : (0:ℚ) < qOr q.target_profit_margin 30 -
        (f.parameters.getD ⟨none, none⟩).min_acceptable_margin.getD 15 := by linarith
    have hnn : 0 ≤ (q.profit_margin_percentage -
        (f.parameters.getD ⟨none, none⟩).min_acceptable_margin.getD 15) /
        (qOr q.target_profit_margin 30 -
          (f.parameters.getD ⟨none, none⟩).min_acceptable_margin.getD 15) :=
      div_nonneg (by linarith) (le_of_lt hd)
    have hlt1 : (q.profit_margin_percentage -
        (f.parameters.getD ⟨none, none⟩).min_acceptable_margin.getD 15) /
        (qOr q.target_profit_margin 30 -
          (f.parameters.getD ⟨none, none⟩).min_acceptable_margin.getD 15) < 1 := by
      rw [div_lt_one hd]
      linarith
    exact ⟨rfl, by linarith, by linarith⟩
  · intro h1 h2
    rw [hs, if_neg (not_lt.mpr h1), if_neg (not_lt.mpr h2)]
  · simp only [calculate_risk_factor]
    norm_num [qOr]
  · simp only [calculate_risk_factor]
    norm_num [qOr]

/-- Witness for C2 at `m = 10 < min_acceptable = 15`: score 100. -/
theorem profit_margin_factor_scoring_witness :
    (calculate_risk_factor ⟨1, some 30, 10, none, [], none, none, none⟩
      ⟨1, "Profit Margin", none, 1, some ⟨some 15, some 30⟩⟩).score = 100 :=
  (profit_margin_factor_scoring ⟨1, some 30, 10, none, [], none, none, none⟩
    ⟨1, "Profit Margin", none, 1, some ⟨some 15, some 30⟩⟩ rfl).1 (by norm_num)

/-- C2 counterexample: `profit_margin_percentage = 22.5` with params
`{min_acceptable_margin: 15, target_margin: 30}` (and quotation target 30)
scores 70, not the claimed 60. -/
theorem profit_margin_factor_counterexample :
    (calculate_risk_factor ⟨1, some 30, 45/2, none, [], none, none, none⟩
      ⟨1, "Profit Margin", none, 1, some ⟨some 15, some 30⟩⟩).score = 70 ∧
    (70:ℚ) ≠ 60 := by
  constructor
  · simp only [calculate_risk_factor]
    norm_num [qOr]
  · norm_num

/-! ### Claim C3 -/

/-- C3 (confirmed): `analyze_risk` computes the overall score as the
weighted average `Σ(score·weight)/Σ(weight)` of the factor results (0 when
the total weight is 0); the exact value is what is written back, and the
response carries it rounded to 1 decimal.  With factor scores `[100, 0]`
and weights `[2, 1]` the overall score is `200/3`, i.e. `66.67` at two
decimals (the response field rounds it to `66.7`). -/
theorem overall_weighted_average (qid : ℕ) (q : Quotation) (g : RiskFactor)
    (gs : List RiskFactor) :
    ((analyze_risk qid (some q) (g :: gs)).2.map UpdateCall.risk_score =
      [if 0 < (((g :: gs).map (calculate_risk_factor q)).map RiskFactorResult.weight).sum then
        (((g :: gs).map (calculate_risk_factor q)).map (fun f => f.score * f.weight)).sum /
          (((g :: gs).map (calculate_risk_factor q)).map RiskFactorResult.weight).sum
       else 0]) ∧
    ((analyze_risk qid (some q) (g :: gs)).1.overall_risk_score =
      pyRound 1
        (if 0 < (((g :: gs).map (calculate_risk_factor q)).map RiskFactorResult.weight).sum then
          (((g :: gs).map (calculate_risk_factor q)).map (fun f => f.score * f.weight)).sum /
            (((g :: gs).map (calculate_risk_factor q)).map RiskFactorResult.weight).sum
         else 0)) ∧
    ((((g :: gs).map (calculate_risk_factor q)).map RiskFactorResult.weight).sum = 0 →
      (analyze_risk qid (some q) (g :: gs)).2.map UpdateCall.risk_score = [0]) ∧
    ((analyze_risk 1 (some ⟨1, some 30, 10, none, [], none, none, none⟩)
      [⟨1, "Profit Margin", none, 2, some ⟨some 15, some 30⟩⟩,
       ⟨2, "Unknown Factor", none, 1, none⟩]).2.map UpdateCall.risk_score = [200/3]) ∧
    ((analyze_risk 1 (some ⟨1, some 30, 10, none, [], none, none, none⟩)
      [⟨1, "Profit Margin", none, 2, some ⟨some 15, some 30⟩⟩,
       ⟨2, "Unknown Factor", none, 1, none⟩]).1.overall_risk_score = 667/10) ∧
    pyRound 2 (200/3) = 6667/100 := by
  refine ⟨rfl, rfl, ?_, ?_, ?_, ?_⟩
  · intro hz
    rw [analyze_risk_cons_spec]
    simp only [List.map_cons, List.sum_cons] at hz ⊢
    rw [hz]
    norm_num
  · have hpm : (calculate_risk_factor ⟨1, some 30, 10, none, [], none, none, none⟩
        ⟨1, "Profit Margin", none, 2, some ⟨some 15, some 30⟩⟩).score = 100 := by
      rw [calc_profit_margin_score _ _ rfl]
      norm_num [qOr]
    have hpw : (calculate_risk_factor ⟨1, some 30, 10, none, [], none, none, none⟩
        ⟨1, "Profit Margin", none, 2, some ⟨some 15, some 30⟩⟩).weight = 2 :=
      calc_weight _ _
    have hu : calculate_risk_factor ⟨1, some 30, 10, none, [], none, none, none⟩
        ⟨2, "Unknown Factor", none, 1, none⟩ =
        { factor_id := 2, name := "Unknown Factor", score := 0, level := RiskLevel.low,
          description := "", weight := 1, details := [] } :=
      calc_unknown _ _ (by decide) (by decide) (by decide) (by decide)
    rw [analyze_risk_cons_spec]
    simp only [List.map_cons, List.map_nil, List.sum_cons, List.sum_nil, hpm, hpw, hu]
    norm_num
  · have hpm : (calculate_risk_factor ⟨1, some 30, 10, none, [], none, none, none⟩
        ⟨1, "Profit Margin", none, 2, some ⟨some 15, some 30⟩⟩).score = 100 := by
      rw [calc_profit_margin_score _ _ rfl]
      norm_num [qOr]
    have hpw : (calculate_risk_factor ⟨1, some 30, 10, none, [], none, none, none⟩
        ⟨1, "Profit Margin", none, 2, some ⟨some 15, some 30⟩⟩).weight = 2 :=
      calc_weight _ _
    have hu : calculate_risk_factor ⟨1, some 30, 10, none, [], none, none, none⟩
        ⟨2, "Unknown Factor", none, 1, none⟩ =
        { factor_id := 2, name := "Unknown Factor", score := 0, level := RiskLevel.low,
          description := "", weight := 1, details := [] } :=
      calc_unknown _ _ (by decide) (by decide) (by decide) (by decide)
    rw [analyze_risk_cons_spec]
    simp only [List.map_cons, List.map_nil, List.sum_cons, List.sum_nil, hpm, hpw, hu]
    norm_num [pyRound, rhe, Int.fract]
  · norm_num [pyRound, rhe, Int.fract]

/-- Witness for C3's zero-total-weight case: a single factor of weight 0
yields a written-back score of 0. -/
theorem overall_weighted_average_witness :
    (analyze_risk 7 (some ⟨1, some 30, 10, none, [], none, none, none⟩)
      [⟨3, "Unknown Factor", none, 0, none⟩]).2.map UpdateCall.risk_score = [0] :=
  (overall_weighted_average 7 ⟨1, some 30, 10, none, [], none, none, none⟩
    ⟨3, "Unknown Factor", none, 0, none⟩ []).2.2.1 (by
      have hu := calc_unknown ⟨1, some 30, 10, none, [], none, none, none⟩
        ⟨3, "Unknown Factor", none, 0, none⟩ (by decide) (by decide) (by decide) (by decide)
      simp [hu])

/-! ### Claim C4 -/

/-- C4 (confirmed): the risk-level thresholds — LOW iff `s < 25`, MEDIUM iff
`25 ≤ s < 50`, HIGH iff `50 ≤ s < 75`, CRITICAL iff `75 ≤ s` — together with
the spec's six boundary evaluations. -/
theorem risk_level_thresholds (s : ℚ) (h0 : 0 ≤ s) (h100 : s ≤ 100) :
    (determine_risk_level s = RiskLevel.low ↔ s < 25) ∧
    (determine_risk_level s = RiskLevel.medium ↔ 25 ≤ s ∧ s < 50) ∧
    (determine_risk_level s = RiskLevel.high ↔ 50 ≤ s ∧ s < 75) ∧
    (determine_risk_level s = RiskLevel.critical ↔ 75 ≤ s) ∧
    determine_risk_level (249/10) = RiskLevel.low ∧
    determine_risk_level 25 = RiskLevel.medium ∧
    determine_risk_level (499/10) = RiskLevel.medium ∧
    determine_risk_level 50 = RiskLevel.high ∧
    determine_risk_level (749/10) = RiskLevel.high ∧
    determine_risk_level 75 = RiskLevel.critical := by
  unfold determine_risk_level
  refine ⟨?_, ?_, ?_, ?_, by norm_num, by norm_num, by norm_num, by norm_num,
    by norm_num, by norm_num⟩ <;>
    split_ifs with h1 h2 h3 <;> simp_all <;> first | linarith | (intro hx; linarith)

/-- Witness for C4 at `s = 30`. -/
theorem risk_level_thresholds_witness :
    determine_risk_level 30 = RiskLevel.medium ↔ 25 ≤ (30:ℚ) ∧ (30:ℚ) < 50 :=
  (risk_level_thresholds 30 (by norm_num) (by norm_num)).2.1

/-! ### Claim C7 -/

/-- C7 (confirmed): `analyze_risk` soft-fails.  When the quotation is not
found it returns the zero-score LOW empty response; when the quotation
exists but no risk factors are configured it returns score 0, level LOW,
no factors, and exactly one recommendation — the "No risk factors defined"
message. -/
theorem analyze_risk_soft_fail (qid : ℕ) (factors : List RiskFactor) (q : Quotation) :
    (analyze_risk qid none factors).1 =
      { quotation_id := qid, overall_risk_score := 0, risk_level := RiskLevel.low,
        factors := [], recommendations := [] } ∧
    (analyze_risk qid (some q) []).1 =
      { quotation_id := qid, overall_risk_score := 0, risk_level := RiskLevel.low,
        factors := [],
        recommendations :=
          ["No risk factors defined in the system. Configure risk factors for proper risk analysis."] } ∧
    (analyze_risk qid (some q) []).1.recommendations.length = 1 ∧
    strOccursIn "No risk factors defined"
      ((analyze_risk qid (some q) []).1.recommendations.getD 0 "") = true := by
  refine ⟨rfl, rfl, rfl, ?_⟩
  have hrec : (analyze_risk qid (some q) []).1.recommendations.getD 0 "" =
      "No risk factors defined in the system. Configure risk factors for proper risk analysis." :=
    rfl
  rw [hrec]
  decide

/-! ### Claim C8 -/

/-- C8 (confirmed): a risk factor whose name is not one of the four
recognized ones yields score 0, level LOW and empty details without
raising, and its result still enters the response's factor list and the
weighted average with its configured weight (contributing 0 to the
numerator and its weight to the denominator). -/
theorem unrecognized_factor_scored_zero (q : Quotation) (f : RiskFactor)
    (hname : f.name ∉ (["Profit Margin", "Price Competitiveness",
      "Customer Payment History", "Delivery Timeline"] : List String)) :
    calculate_risk_factor q f =
      { factor_id := f.id, name := f.name, score := 0, level := RiskLevel.low,
        description := f.description.getD "", weight := f.weight, details := [] } ∧
    ∀ (qid : ℕ) (gs : List RiskFactor),
      (analyze_risk qid (some q) (f :: gs)).1.factors =
        calculate_risk_factor q f :: gs.map (calculate_risk_factor q) ∧
      (analyze_risk qid (some q) (f :: gs)).2.map UpdateCall.risk_score =
        [if 0 < f.weight +
            ((gs.map (calculate_risk_factor q)).map RiskFactorResult.weight).sum then
          ((gs.map (calculate_risk_factor q)).map (fun r => r.score * r.weight)).sum /
            (f.weight + ((gs.map (calculate_risk_factor q)).map RiskFactorResult.weight).sum)
         else 0] := by
  simp only [List.mem_cons, List.mem_singleton] at hname
  push_neg at hname
  obtain ⟨h1, h2, h3, h4, -⟩ := hname
  have hu := calc_unknown q f h1 h2 h3 h4
  refine ⟨hu, ?_⟩
  intro qid gs
  rw [analyze_risk_cons_spec]
  constructor
  · simp
  · simp only [List.map_cons, List.sum_cons, hu]
    norm_num

/-- Witness for C8: the factor named "Nonexistent Factor" is scored 0 with
level LOW and empty details. -/
theorem unrecognized_factor_scored_zero_witness :
    calculate_risk_factor ⟨1, some 30, 10, none, [], none, none, none⟩
        ⟨7, "Nonexistent Factor", none, 1, none⟩ =
      { factor_id := 7, name := "Nonexistent Factor", score := 0, level := RiskLevel.low,
        description := "", weight := 1, details := [] } :=
  (unrecognized_factor_scored_zero ⟨1, some 30, 10, none, [], none, none, none⟩
    ⟨7, "Nonexistent Factor", none, 1, none⟩ (by decide)).1

/-! ### Claim C10 -/

/-- C10 (confirmed): the `update_risk_analysis` write-back is invoked
exactly once (with the analyzed quotation's id) when the quotation exists
and at least one risk factor is configured, and not at all in the not-found
and empty-factors terminal branches — there the stored `risk_score`,
`risk_level` and `risk_factors` are left unchanged. -/
theorem write_back_frame (qid : ℕ) (factors : List RiskFactor) (q s : Quotation) :
    (analyze_risk qid none factors).2 = [] ∧
    (analyze_risk qid (some q) []).2 = [] ∧
    (factors ≠ [] → ((analyze_risk qid (some q) factors).2.length = 1 ∧
      ∀ u ∈ (analyze_risk qid (some q) factors).2, u.quotation_id = qid)) ∧
    applyUpdates s (analyze_risk qid none factors).2 = s ∧
    applyUpdates s (analyze_risk qid (some q) []).2 = s := by
  refine ⟨rfl, rfl, ?_, rfl, rfl⟩
  intro hne
  cases factors with
  | nil => exact absurd rfl hne
  | cons g gs =>
    rw [analyze_risk_cons_spec]
    refine ⟨rfl, ?_⟩
    intro u hu
    simp only [List.mem_singleton] at hu
    rw [hu]

/-- Witness for C10: with one configured factor the write-back fires
exactly once. -/
theorem write_back_frame_witness :
    (analyze_risk 5 (some ⟨1, some 30, 10, none, [], none, none, none⟩)
      [⟨3, "Unknown Factor", none, 1, none⟩]).2.length = 1 :=
  ((write_back_frame 5 [⟨3, "Unknown Factor", none, 1, none⟩]
    ⟨1, some 30, 10, none, [], none, none, none⟩
    ⟨1, some 30, 10, none, [], none, none, none⟩).2.2.1 (by simp)).1

end CotAi
